import Mathlib

/-!
Shallow embedding of `src/reddit_bot.py` (a Reddit "call and response" bot).

Strings are modelled as lists of characters (`Str`).  Python's `str.strip()`
and `str.lower()` are modelled for the ASCII range: `pyStrip` drops leading
and trailing whitespace, `lowerChar` maps the 26 uppercase Latin letters to
their lowercase forms and fixes every other character.

The monitoring loop `monitor_comments` (lines 65-129 of the source) is
embedded as a pure function over a finite prefix of the comment stream.
Each stream element carries, besides the comment itself, the outcome of the
two external calls made while handling it: `meResult` is the identity
returned by `reddit.user.me()` (`none` models the paths where the lookup
raises, or returns an unusable value, so that the `except: pass` on lines
112-114 is taken), and `replyError` is `none` when `comment.reply` succeeds
and `some e` when it raises an exception rendered as `e`.
-/

abbrev Str := List Char

/-- Python `str.strip()` with no argument: drop whitespace from the front of
the string, then from the back. -/
def pyStrip (s : Str) : Str :=
  ((s.dropWhile Char.isWhitespace).reverse.dropWhile Char.isWhitespace).reverse

/-- Python `str.lower()` on one character, restricted to the ASCII range:
each uppercase Latin letter goes to its lowercase form, every other
character is unchanged. -/
def lowerChar (c : Char) : Char :=
  match c with
  | 'A' => 'a' | 'B' => 'b' | 'C' => 'c' | 'D' => 'd' | 'E' => 'e' | 'F' => 'f'
  | 'G' => 'g' | 'H' => 'h' | 'I' => 'i' | 'J' => 'j' | 'K' => 'k' | 'L' => 'l'
  | 'M' => 'm' | 'N' => 'n' | 'O' => 'o' | 'P' => 'p' | 'Q' => 'q' | 'R' => 'r'
  | 'S' => 's' | 'T' => 't' | 'U' => 'u' | 'V' => 'v' | 'W' => 'w' | 'X' => 'x'
  | 'Y' => 'y' | 'Z' => 'z'
  | other => other

/-- Python `str.lower()`: lowercase every character. -/
def pyLower (s : Str) : Str := s.map lowerChar

/-- The normalisation applied on both sides of the trigger comparison:
`.strip().lower()` (lines 98 and 117 of the source). -/
def pyNormalize (s : Str) : Str := pyLower (pyStrip s)

/-- The trigger test of line 118: the normalised body equals the normalised
trigger phrase (the source precomputes the right-hand side once, line 98). -/
def triggerMatch (body trigger : Str) : Bool :=
  pyNormalize body == pyNormalize trigger

/-- A Reddit comment as used by the loop: identifier, body text, author name
(`none` when the author is deleted/unavailable, i.e. `comment.author` is
`None`), and the display name of its subreddit. -/
structure Comment where
  id : Str
  body : Str
  author : Option Str
  subredditName : Str
deriving DecidableEq, Repr

/-- Log lines emitted while handling one comment (lines 120-121 and 127). -/
inductive LogEvent where
  /-- line 120-122: `logging.info("Replying to comment id=%s in r/%s", ...)`,
  emitted inside the `try` block just before the `comment.reply` call. -/
  | infoReplying (commentId : Str) (subreddit : Str)
  /-- line 127: `logging.error("Failed to reply to comment %s: %s", comment.id, e)`. -/
  | errorFailed (commentId : Str) (cause : Str)
deriving DecidableEq, Repr

/-- line 125: `time.sleep(2)` after a successful reply. -/
def SUCCESS_SLEEP : Nat := 2

/-- line 129: `time.sleep(5)` after a failed reply. -/
def FAILURE_SLEEP : Nat := 5

/-- Observable outcome of handling one comment in the loop body. -/
structure StepResult where
  /-- the `continue` on line 111 was taken (comment skipped as self-authored) -/
  skippedSelf : Bool
  /-- the `comment.reply(reply_text)` call of line 123 was reached -/
  replyAttempted : Bool
  /-- that call returned without raising -/
  replySucceeded : Bool
  /-- the body submitted by the successful reply call, if any -/
  replyBody : Option Str
  /-- log lines emitted for this comment, in order -/
  logs : List LogEvent
  /-- seconds slept after handling this comment -/
  sleep : Nat
deriving DecidableEq, Repr

/-- lines 108-114: the comment is skipped exactly when `comment.author` is
truthy and its name equals the name of a successfully resolved `me`.  When
`reddit.user.me()` raises (or yields no usable identity, `meResult = none`)
the `except Exception: pass` is taken and the comment is not skipped; when
`comment.author` is `None` the `and` short-circuits and the comment is not
skipped either. -/
def selfCheck (meResult : Option Str) (c : Comment) : Bool :=
  match meResult, c.author with
  | some m, some a => a == m
  | _, _ => false

/-- Loop body for one comment (lines 107-129 of the source). -/
def processComment (trigger_normalized reply_text : Str)
    (meResult : Option Str) (replyError : Option Str) (c : Comment) : StepResult :=
  if selfCheck meResult c then
    { skippedSelf := true, replyAttempted := false, replySucceeded := false,
      replyBody := none, logs := [], sleep := 0 }
  else
    let body_normalized := pyNormalize c.body
    if body_normalized == trigger_normalized then
      match replyError with
      | none =>
        { skippedSelf := false, replyAttempted := true, replySucceeded := true,
          replyBody := some reply_text,
          logs := [LogEvent.infoReplying c.id c.subredditName],
          sleep := SUCCESS_SLEEP }
      | some e =>
        { skippedSelf := false, replyAttempted := true, replySucceeded := false,
          replyBody := none,
          logs := [LogEvent.infoReplying c.id c.subredditName,
                   LogEvent.errorFailed c.id e],
          sleep := FAILURE_SLEEP }
    else
      { skippedSelf := false, replyAttempted := false, replySucceeded := false,
        replyBody := none, logs := [], sleep := 0 }

/-- One element of the comment stream together with the outcomes of the two
external calls made while handling it. -/
structure IterInput where
  comment : Comment
  meResult : Option Str
  replyError : Option Str
deriving DecidableEq, Repr

/-- The monitoring loop (lines 94-129), run over a finite prefix of the
stream: normalise the trigger phrase once, then handle each comment in
arrival order.  The loop keeps no state between iterations. -/
def monitor_comments (trigger_phrase reply_text : Str)
    (stream : List IterInput) : List StepResult :=
  let trigger_normalized := pyNormalize trigger_phrase
  stream.map fun it =>
    processComment trigger_normalized reply_text it.meResult it.replyError it.comment

/-- line 94: `subreddit_path = "+".join(subreddits)`. -/
def subreddit_path : List Str → Str
  | [] => []
  | [s] => s
  | s :: rest => s ++ '+' :: subreddit_path rest

/-- What the spec asks of the combined target, stated independently:
the channel names with the separator `"+"` interspersed between them. -/
def joinedWithPlusSep (subreddits : List Str) : Str :=
  (subreddits.intersperse ['+']).flatten

/-- line 144: `SUBREDDITS = ["all"]`. -/
def SUBREDDITS : List Str := ["all".data]

/-- line 147: the configured trigger phrase. -/
def TRIGGER_PHRASE : Str := "New response just dropped".data

/-- line 148: the configured reply text. -/
def REPLY_TEXT : Str := "Actual Zombie".data

/-- line 106: the flag passed to `subreddit.stream.comments(skip_existing=True)`. -/
def skip_existing : Bool := true

/-- A comment paired with its creation time, for the stream model. -/
structure TimedComment where
  createdAt : Nat
  comment : Comment
deriving DecidableEq, Repr

/-- Modelled from the spec: PRAW's `subreddit.stream.comments` is external to
this repository; per the spec's external-interface contract, with the
skip-existing flag set it yields only comments created at or after the
subscription time, and without it the feed is passed through. -/
def stream_comments (skipExisting : Bool) (subscriptionTime : Nat)
    (feed : List TimedComment) : List TimedComment :=
  if skipExisting then
    feed.filter fun tc => subscriptionTime ≤ tc.createdAt
  else
    feed

/-! ### Helper lemmas -/

/-- Lowercasing never turns a character into whitespace or out of it. -/
theorem lowerChar_isWhitespace (c : Char) :
    (lowerChar c).isWhitespace = c.isWhitespace := by
  unfold lowerChar
  split <;> rfl

/-- A predicate that holds on every element of a list makes `dropWhile` drop
the whole list. -/
theorem dropWhile_eq_nil_of_all {α : Type} {p : α → Bool} :
    ∀ {l : List α}, (∀ c ∈ l, p c = true) → l.dropWhile p = []
  | [], _ => rfl
  | c :: cs, h => by
    rw [List.dropWhile_cons, if_pos (h c (.head _))]
    exact dropWhile_eq_nil_of_all fun d hd => h d (.tail _ hd)

/-- Every character of the list is whitespace. -/
def AllWhitespace (l : Str) : Prop := ∀ c ∈ l, c.isWhitespace = true

instance (l : Str) : Decidable (AllWhitespace l) :=
  inferInstanceAs (Decidable (∀ c ∈ l, _ = true))

/-- Stripping ignores an all-whitespace prefix. -/
theorem pyStrip_ws_prefix (pre l : Str) (h : AllWhitespace pre) :
    pyStrip (pre ++ l) = pyStrip l := by
  unfold pyStrip
  rw [List.dropWhile_append_of_pos h]

/-- Stripping ignores an all-whitespace suffix. -/
theorem pyStrip_ws_suffix (l suf : Str) (h : AllWhitespace suf) :
    pyStrip (l ++ suf) = pyStrip l := by
  unfold pyStrip
  rw [List.dropWhile_append]
  by_cases hl : (l.dropWhile Char.isWhitespace).isEmpty
  · rw [if_pos hl, dropWhile_eq_nil_of_all h, List.isEmpty_iff.mp hl]
  · rw [if_neg hl, List.reverse_append,
      List.dropWhile_append_of_pos fun a ha => h a (List.mem_reverse.mp ha)]

/-- Stripping commutes with lowercasing. -/
theorem pyStrip_pyLower (l : Str) : pyStrip (pyLower l) = pyLower (pyStrip l) := by
  have hws : (Char.isWhitespace ∘ lowerChar) = Char.isWhitespace :=
    funext lowerChar_isWhitespace
  unfold pyStrip pyLower
  rw [List.dropWhile_map, hws, ← List.map_reverse, List.dropWhile_map, hws,
    ← List.map_reverse]

/-- Normalisation is unchanged by whitespace padding and case changes. -/
theorem pyNormalize_invariant (s s2 pre suf : Str)
    (hpre : AllWhitespace pre) (hsuf : AllWhitespace suf)
    (hcase : pyLower s2 = pyLower s) :
    pyNormalize (pre ++ s2 ++ suf) = pyNormalize s := by
  unfold pyNormalize
  rw [List.append_assoc, pyStrip_ws_prefix _ _ hpre, pyStrip_ws_suffix _ _ hsuf,
    ← pyStrip_pyLower, hcase, pyStrip_pyLower]

/-- An element of `l.zip (l.map f)` pairs each element with its image. -/
theorem mem_zip_map {α β : Type} (f : α → β) (l : List α) :
    ∀ a b, (a, b) ∈ l.zip (l.map f) → b = f a := by
  induction l with
  | nil => intro a b h; simp at h
  | cons x xs ih =>
    intro a b h
    rw [List.map_cons, List.zip_cons_cons] at h
    rcases List.mem_cons.mp h with h | h
    · injection h with h1 h2
      rw [h1, h2]
    · exact ih a b h

/-- Each result of the loop is the loop body applied to its own stream
element. -/
theorem monitor_zip_eq (t r : Str) (stream : List IterInput)
    (it : IterInput) (res : StepResult)
    (h : (it, res) ∈ stream.zip (monitor_comments t r stream)) :
    res = processComment (pyNormalize t) r it.meResult it.replyError it.comment := by
  apply mem_zip_map _ stream it res
  simpa [monitor_comments] using h

theorem processComment_skippedSelf (tN r : Str) (me rerr : Option Str) (c : Comment) :
    (processComment tN r me rerr c).skippedSelf = selfCheck me c := by
  unfold processComment
  by_cases h : selfCheck me c <;>
    by_cases hm : (pyNormalize c.body == tN) = true <;>
      cases rerr <;> simp_all

theorem processComment_replyAttempted (tN r : Str) (me rerr : Option Str) (c : Comment) :
    (processComment tN r me rerr c).replyAttempted =
      (!selfCheck me c && (pyNormalize c.body == tN)) := by
  unfold processComment
  by_cases h : selfCheck me c <;>
    by_cases hm : (pyNormalize c.body == tN) = true <;>
      cases rerr <;> simp_all

theorem processComment_replySucceeded (tN r : Str) (me rerr : Option Str) (c : Comment) :
    (processComment tN r me rerr c).replySucceeded =
      (!selfCheck me c && (pyNormalize c.body == tN) && rerr.isNone) := by
  unfold processComment
  by_cases h : selfCheck me c <;>
    by_cases hm : (pyNormalize c.body == tN) = true <;>
      cases rerr <;> simp_all

theorem processComment_sleep (tN r : Str) (me rerr : Option Str) (c : Comment) :
    (processComment tN r me rerr c).sleep =
      (if (!selfCheck me c && (pyNormalize c.body == tN)) = true then
        (if rerr.isNone then SUCCESS_SLEEP else FAILURE_SLEEP) else 0) := by
  unfold processComment
  by_cases h : selfCheck me c <;>
    by_cases hm : (pyNormalize c.body == tN) = true <;>
      cases rerr <;> simp_all

theorem processComment_logs (tN r : Str) (me rerr : Option Str) (c : Comment) :
    (processComment tN r me rerr c).logs =
      (if (!selfCheck me c && (pyNormalize c.body == tN)) = true then
        match rerr with
        | none => [LogEvent.infoReplying c.id c.subredditName]
        | some e => [LogEvent.infoReplying c.id c.subredditName,
                     LogEvent.errorFailed c.id e]
       else []) := by
  unfold processComment
  by_cases h : selfCheck me c <;>
    by_cases hm : (pyNormalize c.body == tN) = true <;>
      cases rerr <;> simp_all

/-! ### Sample inputs used by witnesses -/

/-- The bot's own account name in the sample scenarios. -/
def botName : Str := "zombot".data

/-- A sample comment by another user whose body is the trigger phrase. -/
def exComment : Comment :=
  { id := "t1_abc".data, body := TRIGGER_PHRASE,
    author := some "alice".data, subredditName := "test".data }

/-- A sample self-authored comment delivered while the identity lookup succeeds. -/
def selfInput : IterInput :=
  { comment := { exComment with author := some botName },
    meResult := some botName, replyError := none }

/-- A sample matching comment whose reply attempt fails. -/
def failInput : IterInput :=
  { comment := exComment, meResult := some botName,
    replyError := some "forbidden".data }

/-- A sample matching comment whose reply attempt succeeds. -/
def okInput : IterInput :=
  { comment := exComment, meResult := some botName, replyError := none }

/-- A sample matching comment whose author is deleted. -/
def delInput : IterInput :=
  { comment := { exComment with author := none },
    meResult := some botName, replyError := none }

/-! ### Claims -/

/-- C1: for every comment processed by `monitor_comments` that is not skipped
as self-authored, a reply is attempted if and only if the trimmed,
case-folded body equals the trimmed, case-folded trigger phrase; in
particular a body differing only by trailing punctuation does not match and
no reply is attempted. -/
theorem reply_iff_trigger_match :
    (∀ (t r : Str) (stream : List IterInput) (it : IterInput) (res : StepResult),
        (it, res) ∈ stream.zip (monitor_comments t r stream) →
        res.skippedSelf = false →
        (res.replyAttempted = true ↔ pyNormalize it.comment.body = pyNormalize t)) ∧
    (processComment (pyNormalize TRIGGER_PHRASE) REPLY_TEXT (some botName) none
        { exComment with body := "New response just dropped!".data }).replyAttempted
      = false := by
  constructor
  · intro t r stream it res hmem hns
    have hres := monitor_zip_eq t r stream it res hmem
    subst hres
    rw [processComment_skippedSelf] at hns
    rw [processComment_replyAttempted, hns]
    simp
  · decide

/-- Witness for C1 at scenario 2's input: the whitespace-padded, upper-cased
body; the reply-attempt decision is exactly the normalised comparison. -/
theorem reply_iff_trigger_match_witness :
    (processComment (pyNormalize TRIGGER_PHRASE) REPLY_TEXT (some botName) none
        { exComment with body := "  NEW RESPONSE JUST DROPPED  ".data }).replyAttempted
        = true ↔
      pyNormalize "  NEW RESPONSE JUST DROPPED  ".data = pyNormalize TRIGGER_PHRASE :=
  reply_iff_trigger_match.1 TRIGGER_PHRASE REPLY_TEXT
    [{ comment := { exComment with body := "  NEW RESPONSE JUST DROPPED  ".data },
       meResult := some botName, replyError := none }]
    { comment := { exComment with body := "  NEW RESPONSE JUST DROPPED  ".data },
      meResult := some botName, replyError := none }
    (processComment (pyNormalize TRIGGER_PHRASE) REPLY_TEXT (some botName) none
      { exComment with body := "  NEW RESPONSE JUST DROPPED  ".data })
    (by decide) (by decide)

/-- C2: the trigger-match decision is invariant under adding or removing
leading/trailing whitespace and under any change of letter casing applied to
either the comment body or the trigger phrase. -/
theorem trigger_match_invariant (B T B2 T2 preB sufB preT sufT : Str)
    (hpreB : AllWhitespace preB) (hsufB : AllWhitespace sufB)
    (hpreT : AllWhitespace preT) (hsufT : AllWhitespace sufT)
    (hB : pyLower B2 = pyLower B) (hT : pyLower T2 = pyLower T) :
    triggerMatch (preB ++ B2 ++ sufB) (preT ++ T2 ++ sufT) = triggerMatch B T := by
  unfold triggerMatch
  rw [pyNormalize_invariant B B2 preB sufB hpreB hsufB hB,
    pyNormalize_invariant T T2 preT sufT hpreT hsufT hT]

/-- Witness for C2 at scenario 2's input: padding the upper-cased trigger
phrase with spaces leaves the match decision unchanged, and it matches. -/
theorem trigger_match_invariant_witness :
    AllWhitespace "  ".data ∧
    pyLower "NEW RESPONSE JUST DROPPED".data = pyLower TRIGGER_PHRASE ∧
    triggerMatch ("  ".data ++ "NEW RESPONSE JUST DROPPED".data ++ "  ".data)
        (([] : Str) ++ TRIGGER_PHRASE ++ ([] : Str))
      = triggerMatch TRIGGER_PHRASE TRIGGER_PHRASE ∧
    triggerMatch TRIGGER_PHRASE TRIGGER_PHRASE = true :=
  ⟨by decide, by decide,
    trigger_match_invariant TRIGGER_PHRASE TRIGGER_PHRASE
      "NEW RESPONSE JUST DROPPED".data TRIGGER_PHRASE
      "  ".data "  ".data [] []
      (by decide) (by decide) (by decide) (by decide) (by decide) (by decide),
    by decide⟩

/-- C3: in every loop iteration, a comment whose author equals the
successfully resolved own identity is never replied to, even when its body
matches; when identity resolution fails the comment is treated as non-self
and proceeds to the trigger check. -/
theorem self_comment_never_replied (t r : Str) (stream : List IterInput)
    (it : IterInput) (res : StepResult)
    (hmem : (it, res) ∈ stream.zip (monitor_comments t r stream)) :
    ((∃ m, it.meResult = some m ∧ it.comment.author = some m) →
        res.skippedSelf = true ∧ res.replyAttempted = false) ∧
    (it.meResult = none →
        res.skippedSelf = false ∧
        (res.replyAttempted = true ↔ pyNormalize it.comment.body = pyNormalize t)) := by
  have hres := monitor_zip_eq t r stream it res hmem
  subst hres
  constructor
  · rintro ⟨m, h1, h2⟩
    have hself : selfCheck it.meResult it.comment = true := by
      simp [selfCheck, h1, h2]
    rw [processComment_skippedSelf, processComment_replyAttempted, hself]
    simp
  · intro h
    have hself : selfCheck it.meResult it.comment = false := by
      simp [selfCheck, h]
    rw [processComment_skippedSelf, processComment_replyAttempted, hself]
    simp

/-- Witness for C3: a self-authored comment whose body is the trigger phrase
is skipped and no reply is attempted. -/
theorem self_comment_never_replied_witness :
    (processComment (pyNormalize TRIGGER_PHRASE) REPLY_TEXT selfInput.meResult
        selfInput.replyError selfInput.comment).skippedSelf = true ∧
    (processComment (pyNormalize TRIGGER_PHRASE) REPLY_TEXT selfInput.meResult
        selfInput.replyError selfInput.comment).replyAttempted = false :=
  (self_comment_never_replied TRIGGER_PHRASE REPLY_TEXT [selfInput] selfInput
      (processComment (pyNormalize TRIGGER_PHRASE) REPLY_TEXT selfInput.meResult
        selfInput.replyError selfInput.comment)
      (by decide)).1 ⟨botName, rfl, rfl⟩

/-- C4: the fixed delay after a failed reply attempt (5) is strictly greater
than the fixed delay after a successful reply attempt (2). -/
theorem failure_delay_gt_success_delay (tN r : Str) (me : Option Str) (e : Str)
    (c : Comment)
    (h : (processComment tN r me (some e) c).replyAttempted = true) :
    (processComment tN r me none c).sleep = SUCCESS_SLEEP ∧
    (processComment tN r me (some e) c).sleep = FAILURE_SLEEP ∧
    SUCCESS_SLEEP = 2 ∧ FAILURE_SLEEP = 5 ∧
    (processComment tN r me none c).sleep <
      (processComment tN r me (some e) c).sleep := by
  rw [processComment_replyAttempted] at h
  have h2 : (processComment tN r me none c).sleep = SUCCESS_SLEEP := by
    simp [processComment_sleep, h]
  have h5 : (processComment tN r me (some e) c).sleep = FAILURE_SLEEP := by
    simp [processComment_sleep, h]
  exact ⟨h2, h5, rfl, rfl, by rw [h2, h5]; decide⟩

/-- Witness for C4 at a concrete failing reply to a matching comment. -/
theorem failure_delay_gt_success_delay_witness :
    (processComment (pyNormalize TRIGGER_PHRASE) REPLY_TEXT (some botName)
        (some "forbidden".data) exComment).replyAttempted = true ∧
    ((processComment (pyNormalize TRIGGER_PHRASE) REPLY_TEXT (some botName)
        none exComment).sleep = SUCCESS_SLEEP ∧
     (processComment (pyNormalize TRIGGER_PHRASE) REPLY_TEXT (some botName)
        (some "forbidden".data) exComment).sleep = FAILURE_SLEEP ∧
     SUCCESS_SLEEP = 2 ∧ FAILURE_SLEEP = 5 ∧
     (processComment (pyNormalize TRIGGER_PHRASE) REPLY_TEXT (some botName)
        none exComment).sleep <
       (processComment (pyNormalize TRIGGER_PHRASE) REPLY_TEXT (some botName)
          (some "forbidden".data) exComment).sleep) :=
  ⟨by decide,
    failure_delay_gt_success_delay (pyNormalize TRIGGER_PHRASE) REPLY_TEXT
      (some botName) "forbidden".data exComment (by decide)⟩

/-- C5: a failed reply attempt is logged at error level with the comment
identifier and the underlying cause, followed by the long backoff delay;
the error never escapes the loop, which processes the whole stream. -/
theorem reply_error_recovered_locally (t r : Str) (stream : List IterInput) :
    (monitor_comments t r stream).length = stream.length ∧
    ∀ (it : IterInput) (res : StepResult) (e : Str),
      (it, res) ∈ stream.zip (monitor_comments t r stream) →
      it.replyError = some e →
      res.replyAttempted = true →
      LogEvent.errorFailed it.comment.id e ∈ res.logs ∧
      res.sleep = FAILURE_SLEEP := by
  constructor
  · simp [monitor_comments]
  · intro it res e hmem herr hatt
    have hres := monitor_zip_eq t r stream it res hmem
    subst hres
    rw [processComment_replyAttempted] at hatt
    rw [processComment_logs, processComment_sleep, hatt, herr]
    simp

/-- Witness for C5: a permission error on a matching comment is logged with
the comment id and cause and followed by the 5-unit backoff. -/
theorem reply_error_recovered_locally_witness :
    LogEvent.errorFailed failInput.comment.id "forbidden".data ∈
      (processComment (pyNormalize TRIGGER_PHRASE) REPLY_TEXT failInput.meResult
        failInput.replyError failInput.comment).logs ∧
    (processComment (pyNormalize TRIGGER_PHRASE) REPLY_TEXT failInput.meResult
        failInput.replyError failInput.comment).sleep = FAILURE_SLEEP :=
  (reply_error_recovered_locally TRIGGER_PHRASE REPLY_TEXT [failInput]).2
    failInput
    (processComment (pyNormalize TRIGGER_PHRASE) REPLY_TEXT failInput.meResult
      failInput.replyError failInput.comment)
    "forbidden".data (by decide) rfl (by decide)

/-- C6: the channel set is resolved into one target by joining the names
with the separator plus; ["test", "learnpython"] becomes "test+learnpython"
and the sentinel ["all"] yields "all". -/
theorem subreddit_path_joins_with_plus :
    (∀ subs : List Str, subreddit_path subs = joinedWithPlusSep subs) ∧
    subreddit_path ["test".data, "learnpython".data] = "test+learnpython".data ∧
    subreddit_path SUBREDDITS = "all".data := by
  refine ⟨?_, by decide, by decide⟩
  intro subs
  induction subs with
  | nil => rfl
  | cons s rest ih =>
    cases rest with
    | nil => simp [subreddit_path, joinedWithPlusSep]
    | cons s2 r2 =>
      simp only [subreddit_path, joinedWithPlusSep, List.intersperse_cons₂,
        List.flatten_cons] at ih ⊢
      rw [ih]
      simp

/-- C7: the stream is opened with the skip-existing flag set to true, so
every comment it yields was created at or after the subscription time. -/
theorem stream_skips_existing :
    skip_existing = true ∧
    ∀ (subscriptionTime : Nat) (feed : List TimedComment) (tc : TimedComment),
      tc ∈ stream_comments skip_existing subscriptionTime feed →
      ¬ tc.createdAt < subscriptionTime := by
  refine ⟨rfl, ?_⟩
  intro subT feed tc hmem
  simp [stream_comments, skip_existing, List.mem_filter] at hmem
  omega

/-- Witness for C7: a comment created at time 5 passes a stream subscribed
at time 3, and indeed was not created before subscription. -/
theorem stream_skips_existing_witness :
    (⟨5, exComment⟩ : TimedComment) ∈
      stream_comments skip_existing 3 [⟨1, exComment⟩, ⟨5, exComment⟩] ∧
    ¬ (⟨5, exComment⟩ : TimedComment).createdAt < 3 :=
  ⟨by decide,
    stream_skips_existing.2 3 [⟨1, exComment⟩, ⟨5, exComment⟩] ⟨5, exComment⟩
      (by decide)⟩

/-- C8 counterexample: the claim that the action log is emitted exactly when
the reply attempt succeeds is false: on a matching comment whose reply
attempt fails, the action log has already been emitted (the `logging.info`
of line 120 runs inside the `try` block before `comment.reply`). -/
theorem action_log_on_failed_reply :
    ¬ (∀ (t r : Str) (stream : List IterInput) (it : IterInput) (res : StepResult),
        (it, res) ∈ stream.zip (monitor_comments t r stream) →
        (LogEvent.infoReplying it.comment.id it.comment.subredditName ∈ res.logs ↔
          res.replySucceeded = true)) := by
  intro hclaim
  have h := hclaim TRIGGER_PHRASE REPLY_TEXT [failInput] failInput
    (processComment (pyNormalize TRIGGER_PHRASE) REPLY_TEXT failInput.meResult
      failInput.replyError failInput.comment)
    (by decide)
  exact absurd h (by decide)

/-- C8 amended: the action log with the comment identifier and channel is
emitted exactly when a reply is attempted (it precedes the reply call, so it
also appears on the failure path), and the error log is emitted exactly
when the reply attempt fails. -/
theorem action_log_iff_reply_attempted (t r : Str) (stream : List IterInput)
    (it : IterInput) (res : StepResult)
    (hmem : (it, res) ∈ stream.zip (monitor_comments t r stream)) :
    (LogEvent.infoReplying it.comment.id it.comment.subredditName ∈ res.logs ↔
      res.replyAttempted = true) ∧
    ((∃ e, LogEvent.errorFailed it.comment.id e ∈ res.logs) ↔
      res.replyAttempted = true ∧ res.replySucceeded = false) := by
  have hres := monitor_zip_eq t r stream it res hmem
  subst hres
  rw [processComment_logs, processComment_replyAttempted, processComment_replySucceeded]
  by_cases h : (!selfCheck it.meResult it.comment &&
      (pyNormalize it.comment.body == pyNormalize t)) = true
  · rw [if_pos h, h]
    cases hre : it.replyError with
    | none => simp
    | some e => simp
  · rw [if_neg h]
    rw [Bool.not_eq_true] at h
    rw [h]
    simp

/-- Witness for C8 at a concrete failing reply: the action log is present
because a reply was attempted, and the error log marks the failure. -/
theorem action_log_iff_reply_attempted_witness :
    (LogEvent.infoReplying failInput.comment.id failInput.comment.subredditName ∈
        (processComment (pyNormalize TRIGGER_PHRASE) REPLY_TEXT failInput.meResult
          failInput.replyError failInput.comment).logs ↔
      (processComment (pyNormalize TRIGGER_PHRASE) REPLY_TEXT failInput.meResult
          failInput.replyError failInput.comment).replyAttempted = true) ∧
    ((∃ e, LogEvent.errorFailed failInput.comment.id e ∈
        (processComment (pyNormalize TRIGGER_PHRASE) REPLY_TEXT failInput.meResult
          failInput.replyError failInput.comment).logs) ↔
      (processComment (pyNormalize TRIGGER_PHRASE) REPLY_TEXT failInput.meResult
          failInput.replyError failInput.comment).replyAttempted = true ∧
      (processComment (pyNormalize TRIGGER_PHRASE) REPLY_TEXT failInput.meResult
          failInput.replyError failInput.comment).replySucceeded = false) :=
  action_log_iff_reply_attempted TRIGGER_PHRASE REPLY_TEXT [failInput] failInput
    (processComment (pyNormalize TRIGGER_PHRASE) REPLY_TEXT failInput.meResult
      failInput.replyError failInput.comment)
    (by decide)

/-- C9: processing is idempotent with respect to the loop's own state:
delivering the same stream element after any prefix produces the same
outcome, namely the loop body applied to that element alone. -/
theorem duplicate_delivery_same_outcome (t r : Str) (s1 s2 : List IterInput)
    (it : IterInput) :
    (monitor_comments t r (s1 ++ [it])).getLast? =
      (monitor_comments t r (s2 ++ [it])).getLast? ∧
    (monitor_comments t r (s1 ++ [it])).getLast? =
      some (processComment (pyNormalize t) r it.meResult it.replyError it.comment) := by
  constructor <;>
    simp [monitor_comments, List.map_append, List.getLast?_concat]

/-- C10: a comment with an absent author is not treated as self-authored:
the guard short-circuits and the comment proceeds to the trigger check. -/
theorem deleted_author_not_self (t r : Str) (stream : List IterInput)
    (it : IterInput) (res : StepResult)
    (hmem : (it, res) ∈ stream.zip (monitor_comments t r stream))
    (hauthor : it.comment.author = none) :
    res.skippedSelf = false ∧
    (res.replyAttempted = true ↔ pyNormalize it.comment.body = pyNormalize t) := by
  have hres := monitor_zip_eq t r stream it res hmem
  subst hres
  have hself : selfCheck it.meResult it.comment = false := by
    unfold selfCheck
    rw [hauthor]
    cases it.meResult <;> rfl
  rw [processComment_skippedSelf, processComment_replyAttempted, hself]
  simp

/-- Witness for C10: a matching comment with a deleted author is not skipped
and still goes through the trigger check. -/
theorem deleted_author_not_self_witness :
    (processComment (pyNormalize TRIGGER_PHRASE) REPLY_TEXT delInput.meResult
        delInput.replyError delInput.comment).skippedSelf = false ∧
    ((processComment (pyNormalize TRIGGER_PHRASE) REPLY_TEXT delInput.meResult
        delInput.replyError delInput.comment).replyAttempted = true ↔
      pyNormalize delInput.comment.body = pyNormalize TRIGGER_PHRASE) :=
  deleted_author_not_self TRIGGER_PHRASE REPLY_TEXT [delInput] delInput
    (processComment (pyNormalize TRIGGER_PHRASE) REPLY_TEXT delInput.meResult
      delInput.replyError delInput.comment)
    (by decide) rfl
